import Mathlib

/-!
Shallow embedding of the humanRadar LVGL radar panel
(src/main/radar_screen.c and the radar-panel variant in src/unnamed/part_000).

Machine integers (int16_t, uint16_t, uint8_t) are modelled as ℤ / ℕ; the C
float computations (cosf/sinf, M_PI) are modelled over ℝ, and the C cast
`(int16_t)(float expr)` is modelled as exact truncation toward zero (the
int16_t range is not enforced; out-of-range float-to-int conversion is
undefined behaviour in C).  LVGL objects are modelled as records of the
geometric data the code writes into them; object creation and deletion are
modelled through an explicit world of live handles.
-/

/-- Truncation of a real number toward zero: the semantics of C's cast from
a floating-point value to an integer type (for in-range values). -/
noncomputable def truncZ (x : ℝ) : ℤ := if 0 ≤ x then ⌊x⌋ else ⌈x⌉

/-- Endpoint of a radar ray of length `len` pixels from origin `(cx, cy)` at
`angleDeg` degrees: `x = cx + (int)(len*cos(a*M_PI/180))`,
`y = cy - (int)(len*sin(a*M_PI/180))`.  This is the polar-to-screen formula
that appears inline in `lv_radar_screen_draw` (radar_screen.c:63-67),
`lv_radar_sweep_update` (radar_screen.c:133-137) and the marker placement. -/
noncomputable def radarEndpoint (cx cy : ℤ) (len : ℝ) (angleDeg : ℝ) : ℤ × ℤ :=
  (cx + truncZ (len * Real.cos (angleDeg * Real.pi / 180)),
   cy - truncZ (len * Real.sin (angleDeg * Real.pi / 180)))

/-- A line primitive: the two points written by `lv_line_set_points`. -/
structure LvLine where
  p0 : ℤ × ℤ
  p1 : ℤ × ℤ
deriving DecidableEq, Repr

/-- A sweep-shadow line primitive: its points, the angle it was computed
from, and the opacity written by `lv_obj_set_style_line_opa`. -/
structure LvShadow where
  line : LvLine
  angleVal : ℤ
  opa : ℤ
deriving DecidableEq, Repr

/-- Shadow angle for shadow slot `i` at (already clamped) sweep angle
`angle`: `shadow_angle = angle - (i+1)*8; if (shadow_angle < 0) shadow_angle = 0;`
(radar_screen.c:160-161).  The C code holds this in a float, but the values
are exact small integers. -/
def shadowAngle (angle : ℤ) (i : ℕ) : ℤ :=
  let sa := angle - ((i : ℤ) + 1) * 8
  if sa < 0 then 0 else sa

/-- Shadow opacity for shadow slot `i`: `uint8_t opacity = 255 - (i * 50);`
(radar_screen.c:179), computed in int and in range for i = 0..4. -/
def shadowOpacity (i : ℤ) : ℤ := 255 - i * 50

/-- The radar sweep state `lv_radar_sweep_t` (radar_screen.c:110-118):
origin, radius, current angle, the lazily created sweep line and the five
lazily created shadow lines.  The `parent` pointer is irrelevant to the
geometry and omitted. -/
structure lv_radar_sweep_t where
  center_x : ℤ
  center_y : ℤ
  radius : ℤ
  current_angle : ℕ
  sweep_line : Option LvLine
  shadow_lines : Fin 5 → Option LvShadow

/-- One step of `lv_radar_sweep_update` (radar_screen.c:126-189): clamp the
angle to [0,180], store it, recompute the sweep-line endpoints, and rewrite
all five shadow lines (each is created if absent; either way its points and
opacity after the call are the ones computed from the clamped angle). -/
noncomputable def lv_radar_sweep_update (sweep : lv_radar_sweep_t) (angle : ℕ) :
    lv_radar_sweep_t :=
  let a := if 180 < angle then 180 else angle
  let endPt := radarEndpoint sweep.center_x sweep.center_y (sweep.radius : ℝ) (a : ℝ)
  { sweep with
    current_angle := a
    sweep_line := some ⟨(sweep.center_x, sweep.center_y), endPt⟩
    shadow_lines := fun i =>
      let sa := shadowAngle (a : ℤ) (i : ℕ)
      let sEnd := radarEndpoint sweep.center_x sweep.center_y (sweep.radius : ℝ) (sa : ℝ)
      some ⟨⟨(sweep.center_x, sweep.center_y), sEnd⟩, sa, shadowOpacity (i : ℤ)⟩ }

/-- Result of `lv_radar_sweep_delete`: which line primitives were passed to
`lv_obj_del`, and whether `free(sweep)` ran. -/
structure SweepDeleteResult where
  deleted_sweep_lines : List LvLine
  deleted_shadows : List LvShadow
  freed : Bool

/-- `lv_radar_sweep_delete` (radar_screen.c:260-275): return immediately on
NULL; otherwise delete the sweep line if non-NULL, delete each non-NULL
shadow line, then free the structure. -/
def lv_radar_sweep_delete : Option lv_radar_sweep_t → SweepDeleteResult
  | none => ⟨[], [], false⟩
  | some s =>
      ⟨s.sweep_line.toList,
       (List.finRange 5).filterMap (fun i => s.shadow_lines i),
       true⟩

/-- The marker record `lv_radar_marker_t` (radar_panel.h): an owned icon
handle (NULL modelled as `none`, a handle as a numeric object id), a
distance in meters and an angle in degrees. -/
structure lv_radar_marker_t where
  icon : Option ℕ
  distance : ℝ
  angle : ℕ

/-- The LVGL object world: the next fresh object id, the list of live
object ids in creation order, and each object's stored position. -/
@[ext]
structure LvWorld where
  nextId : ℕ
  live : List ℕ
  objPos : ℕ → ℤ × ℤ

/-- `lv_label_create(parent)`: allocate a fresh object and return its
handle. -/
def lv_label_create (w : LvWorld) : LvWorld × ℕ :=
  ({ w with nextId := w.nextId + 1, live := w.live ++ [w.nextId] }, w.nextId)

/-- `lv_obj_set_pos(handle, x, y)`: store the object's position. -/
def lv_obj_set_pos (w : LvWorld) (h : ℕ) (p : ℤ × ℤ) : LvWorld :=
  { w with objPos := Function.update w.objPos h p }

/-- Marker pixel position as computed inside `lv_radar_add_markers`
(part_000:246-268): `total_meters = band_count*2`, `meters_per_pixel =
total_meters/radius`, `pixel_distance = distance/meters_per_pixel`, then the
polar-to-screen formula. -/
noncomputable def markerPosAdd (cx cy : ℤ) (radius : ℝ) (band_count : ℕ)
    (distance : ℝ) (angle : ℕ) : ℤ × ℤ :=
  let total_meters : ℝ := (band_count : ℝ) * 2
  let meters_per_pixel : ℝ := total_meters / radius
  let pixel_distance : ℝ := distance / meters_per_pixel
  radarEndpoint cx cy pixel_distance (angle : ℝ)

/-- Marker pixel position as computed inside `lv_radar_update_markers`
(part_000:293-313); kept as a separate definition because the source
recomputes it in a second function. -/
noncomputable def markerPosUpdate (cx cy : ℤ) (radius : ℝ) (band_count : ℕ)
    (distance : ℝ) (angle : ℕ) : ℤ × ℤ :=
  let total_meters : ℝ := (band_count : ℝ) * 2
  let meters_per_pixel : ℝ := total_meters / radius
  let pixel_distance : ℝ := distance / meters_per_pixel
  radarEndpoint cx cy pixel_distance (angle : ℝ)

/-- The meters-per-pixel scale of `lv_radar_add_markers` (part_000:248-249). -/
noncomputable def metersPerPixelAdd (band_count : ℕ) (radius : ℝ) : ℝ :=
  ((band_count : ℝ) * 2) / radius

/-- The meters-per-pixel scale of `lv_radar_update_markers` (part_000:296-297). -/
noncomputable def metersPerPixelUpdate (band_count : ℕ) (radius : ℝ) : ℝ :=
  ((band_count : ℝ) * 2) / radius

/-- `lv_radar_add_markers` (part_000:246-281): for every marker in the input
array, compute its pixel position, unconditionally create a fresh icon
object, position it at the computed point offset by (-8,-8), and store the
new handle in the marker slot.  There is no NULL check on the slot: a second
call creates a second icon for the same slot. -/
noncomputable def lv_radar_add_markers (cx cy : ℤ) (radius : ℝ) (band_count : ℕ)
    (w : LvWorld) : List lv_radar_marker_t → LvWorld × List lv_radar_marker_t
  | [] => (w, [])
  | m :: rest =>
      let p := markerPosAdd cx cy radius band_count m.distance m.angle
      let created := lv_label_create w
      let w2 := lv_obj_set_pos created.1 created.2 (p.1 - 8, p.2 - 8)
      let tail := lv_radar_add_markers cx cy radius band_count w2 rest
      (tail.1, { m with icon := some created.2 } :: tail.2)

/-- `lv_radar_update_markers` (part_000:293-315): recompute each marker's
pixel position with the same scale formula and reposition the existing icon.
The C code calls `lv_obj_set_pos(marker->icon, ...)` unconditionally; a NULL
icon (on which that call would be invalid) is modelled as leaving the world
unchanged. -/
noncomputable def lv_radar_update_markers (cx cy : ℤ) (radius : ℝ) (band_count : ℕ)
    (w : LvWorld) : List lv_radar_marker_t → LvWorld
  | [] => w
  | m :: rest =>
      let p := markerPosUpdate cx cy radius band_count m.distance m.angle
      let w1 := match m.icon with
        | some h => lv_obj_set_pos w h (p.1 - 8, p.2 - 8)
        | none => w
      lv_radar_update_markers cx cy radius band_count w1 rest

/-- `lv_radar_remove_markers` (part_000:323-331): for each slot whose icon is
non-NULL, delete the icon and set the slot's icon to NULL.  Returns the
updated marker array and the list of handles passed to `lv_obj_del`, in loop
order. -/
def lv_radar_remove_markers :
    List lv_radar_marker_t → List lv_radar_marker_t × List ℕ
  | [] => ([], [])
  | m :: rest =>
      let tail := lv_radar_remove_markers rest
      match m.icon with
      | some h => ({ m with icon := none } :: tail.1, h :: tail.2)
      | none => (m :: tail.1, tail.2)

/-- A grid primitive created by `lv_radar_screen_draw`. -/
inductive LvGridPrim where
  /-- a band arc: its size and top-left position -/
  | arc (size : ℤ) (x y : ℤ)
  /-- a radial line from the origin to the semicircle -/
  | radial (p0 p1 : ℤ × ℤ)
  /-- a horizontal band-boundary line -/
  | hline (p0 p1 : ℤ × ℤ)

/-- `lv_radar_screen_draw` (radar_screen.c:19-105): draw `band_count` arcs
(band = 1..band_count, radius `(radius/band_count)*band` with C truncating
integer division), `line_count` radial lines at angles `180/(line_count-1)*i`,
and `band_count-1` horizontal band-boundary lines.  The function draws
unconditionally: there is no validation of radius, band_count or
line_count. -/
noncomputable def lv_radar_screen_draw (cx cy radius : ℤ)
    (band_count line_count : ℕ) : List LvGridPrim :=
  let band_radius := Int.tdiv radius (band_count : ℤ)
  ((List.range band_count).map (fun b : ℕ =>
    let cr := band_radius * ((b : ℤ) + 1)
    LvGridPrim.arc (cr * 2) (cx - cr) (cy - cr))) ++
  ((List.range line_count).map (fun i : ℕ =>
    let angle_deg : ℝ := (180 / ((line_count : ℝ) - 1)) * (i : ℝ)
    LvGridPrim.radial (cx, cy) (radarEndpoint cx cy (radius : ℝ) angle_deg))) ++
  ((List.range (band_count - 1)).map (fun b : ℕ =>
    let k := band_radius * ((b : ℤ) + 1)
    LvGridPrim.hline (cx - k, cy - k) (cx + k, cy - k)))

/-- `lv_radar_screen_create` (radar_screen.c:285-303): always creates the
container, computes `center_x = width/2`, `center_y = height`,
`radius = height - 10`, and draws the grid with band_count = 4,
line_count = 9.  There is no failure path and no configuration check.
Returns `(center_x, center_y, radius)` and the created grid primitives. -/
noncomputable def lv_radar_screen_create (width height : ℤ) :
    (ℤ × ℤ × ℤ) × List LvGridPrim :=
  let cx := Int.tdiv width 2
  let cy := height
  let radius := height - 10
  ((cx, cy, radius), lv_radar_screen_draw cx cy radius 4 9)

/-- The icon handles held by a marker array (NULL slots skipped). -/
def markerKeys (ms : List lv_radar_marker_t) : List ℕ :=
  ms.filterMap (fun m => m.icon)

theorem truncZ_intCast (n : ℤ) : truncZ (n : ℝ) = n := by
  unfold truncZ
  split
  · exact Int.floor_intCast n
  · exact Int.ceil_intCast n

theorem truncZ_zero : truncZ 0 = 0 := by
  simpa using truncZ_intCast 0

theorem shadowAngle_eq_max (a : ℤ) (i : ℕ) :
    shadowAngle a i = max 0 (a - 8 * ((i : ℤ) + 1)) := by
  simp only [shadowAngle]
  split <;> omega

theorem clamp_eq_min (a : ℕ) : (if 180 < a then 180 else a) = min a 180 := by
  split <;> omega

/-- C1: at distance_fraction 1.0 the polar-to-screen transform sends angle 0
to the rightmost point `(cx + r, cy)`, angle 90 to the topmost point
`(cx, cy - r)` and angle 180 to the leftmost point `(cx - r, cy)`; in the
exact-real model of the float computation the coordinates are not merely
within one pixel of these values but equal to them. -/
theorem radar_endpoint_cardinal_points (cx cy r : ℤ) (hr : 0 < r) :
    radarEndpoint cx cy (r : ℝ) 0 = (cx + r, cy) ∧
    radarEndpoint cx cy (r : ℝ) 90 = (cx, cy - r) ∧
    radarEndpoint cx cy (r : ℝ) 180 = (cx - r, cy) := by
  unfold radarEndpoint
  have h90 : (90 : ℝ) * Real.pi / 180 = Real.pi / 2 := by ring
  have h180 : (180 : ℝ) * Real.pi / 180 = Real.pi := by ring
  refine ⟨?_, ?_, ?_⟩
  · have hx : (0 : ℝ) * Real.pi / 180 = 0 := by ring
    rw [hx, Real.cos_zero, Real.sin_zero, mul_one, mul_zero, truncZ_zero,
      truncZ_intCast]
    simp
  · rw [h90, Real.cos_pi_div_two, Real.sin_pi_div_two, mul_zero, mul_one,
      truncZ_zero, truncZ_intCast]
    simp
  · rw [h180, Real.cos_pi, Real.sin_pi, mul_zero, truncZ_zero]
    have : (r : ℝ) * (-1) = ((-r : ℤ) : ℝ) := by push_cast; ring
    rw [this, truncZ_intCast]
    simp [sub_eq_add_neg]

/-- Concrete instance of the C1 theorem at origin (0,0) and radius 5. -/
theorem radar_endpoint_cardinal_points_witness :
    radarEndpoint 0 0 ((5 : ℤ) : ℝ) 0 = (0 + 5, 0) ∧
    radarEndpoint 0 0 ((5 : ℤ) : ℝ) 90 = (0, 0 - 5) ∧
    radarEndpoint 0 0 ((5 : ℤ) : ℝ) 180 = (0 - 5, 0) :=
  radar_endpoint_cardinal_points 0 0 5 (by decide)

/-- C2: `lv_radar_sweep_update` stores the input angle clamped to [0,180] as
`current_angle`, so `current_angle ≤ 180` after every update, and updating
with 181 produces exactly the same state (including all line endpoints) as
updating with 180. -/
theorem sweep_update_clamps_angle (s : lv_radar_sweep_t) (a : ℕ) :
    (lv_radar_sweep_update s a).current_angle = min a 180 ∧
    (lv_radar_sweep_update s a).current_angle ≤ 180 ∧
    lv_radar_sweep_update s 181 = lv_radar_sweep_update s 180 := by
  refine ⟨?_, ?_, ?_⟩
  · show (if 180 < a then 180 else a) = min a 180
    exact clamp_eq_min a
  · show (if 180 < a then 180 else a) ≤ 180
    split <;> omega
  · show lv_radar_sweep_update s 181 = lv_radar_sweep_update s 180
    unfold lv_radar_sweep_update
    norm_num

/-- C3: every shadow line written by `lv_radar_sweep_update` has angle
`max(0, clamped_angle - 8*(j+1))`; at input angle 10 shadow 0 has angle 2 and
shadows 1..4 all have angle 0. -/
theorem sweep_update_shadow_angles (s : lv_radar_sweep_t) (a : ℕ) (i : Fin 5) :
    (((lv_radar_sweep_update s a).shadow_lines i).map LvShadow.angleVal) =
      some (max 0 ((min a 180 : ℕ) - 8 * ((i : ℤ) + 1))) ∧
    (((lv_radar_sweep_update s 10).shadow_lines ⟨0, by decide⟩).map LvShadow.angleVal)
      = some 2 ∧
    (∀ j : Fin 5, 1 ≤ (j : ℕ) →
      (((lv_radar_sweep_update s 10).shadow_lines j).map LvShadow.angleVal) = some 0) := by
  have key : ∀ (b : ℕ) (j : Fin 5),
      ((lv_radar_sweep_update s b).shadow_lines j).map LvShadow.angleVal =
        some (shadowAngle (((if 180 < b then 180 else b) : ℕ) : ℤ) (j : ℕ)) :=
    fun _ _ => rfl
  refine ⟨?_, ?_, ?_⟩
  · rw [key, clamp_eq_min, shadowAngle_eq_max]
  · rw [key]
    decide
  · intro j hj
    rw [key, shadowAngle_eq_max]
    have h10 : (((if 180 < 10 then 180 else 10 : ℕ)) : ℤ) = 10 := by norm_num
    rw [h10, Option.some_inj]
    have hj' : (1 : ℤ) ≤ ((j : ℕ) : ℤ) := by exact_mod_cast hj
    omega

/-- Concrete instance of the C3 theorem: shadow angles at update angle 10. -/
theorem sweep_update_shadow_angles_witness :
    (((lv_radar_sweep_update ⟨0, 0, 5, 0, none, fun _ => none⟩ 10).shadow_lines
        ⟨1, by decide⟩).map LvShadow.angleVal) = some 0 :=
  (sweep_update_shadow_angles ⟨0, 0, 5, 0, none, fun _ => none⟩ 10
    ⟨1, by decide⟩).2.2 ⟨1, by decide⟩ (by decide)

/-- C4: the shadow opacities for slots 0..4 are 255, 205, 155, 105, 55 —
strictly decreasing and all nonnegative — and each equals `255 - 50*j`. -/
theorem sweep_shadow_opacity_sequence :
    ([0, 1, 2, 3, 4].map shadowOpacity = [255, 205, 155, 105, 55]) ∧
    (∀ i : Fin 4, shadowOpacity ((i : ℤ) + 1) < shadowOpacity (i : ℤ)) ∧
    (([0, 1, 2, 3, 4].map shadowOpacity).all fun o => 0 ≤ o) ∧
    (∀ i : Fin 5, shadowOpacity (i : ℤ) = 255 - 50 * (i : ℤ)) := by
  refine ⟨by decide, by decide, by decide, ?_⟩
  intro i
  unfold shadowOpacity
  ring

/-- C5: for band_count ≥ 1 and radius > 0, `lv_radar_add_markers` and
`lv_radar_update_markers` use the same meters-per-pixel scale
`(band_count * 2) / radius` (the scale implied by band_count bands of 2
distance units each over radius pixels), and therefore compute the same
pixel position for any marker. -/
theorem marker_scale_consistent (b : ℕ) (r : ℝ) (hb : 1 ≤ b) (hr : 0 < r)
    (cx cy : ℤ) (d : ℝ) (a : ℕ) :
    metersPerPixelAdd b r = ((b : ℝ) * 2) / r ∧
    metersPerPixelUpdate b r = metersPerPixelAdd b r ∧
    markerPosUpdate cx cy r b d a = markerPosAdd cx cy r b d a := by
  exact ⟨rfl, rfl, rfl⟩

/-- Concrete instance of the C5 theorem at band_count 4, radius 310. -/
theorem marker_scale_consistent_witness :
    markerPosUpdate 240 320 310 4 (5 / 2) 45 = markerPosAdd 240 320 310 4 (5 / 2) 45 :=
  (marker_scale_consistent 4 310 (by decide) (by norm_num) 240 320 (5 / 2) 45).2.2

/-- C9: `lv_radar_sweep_delete` on NULL deletes nothing and frees nothing;
on a sweep structure it frees the structure, deletes the sweep line exactly
when it is non-NULL (`Option.toList` is empty on `none`), and deletes
exactly the non-NULL shadow lines (NULL slots are skipped by the
`filterMap`, never dereferenced). -/
theorem sweep_delete_releases_exactly_live_handles (s : lv_radar_sweep_t) :
    (lv_radar_sweep_delete none).deleted_sweep_lines = [] ∧
    (lv_radar_sweep_delete none).deleted_shadows = [] ∧
    (lv_radar_sweep_delete none).freed = false ∧
    (lv_radar_sweep_delete (some s)).freed = true ∧
    (lv_radar_sweep_delete (some s)).deleted_sweep_lines = s.sweep_line.toList ∧
    (lv_radar_sweep_delete (some s)).deleted_shadows =
      (List.finRange 5).filterMap (fun i => s.shadow_lines i) := by
  exact ⟨rfl, rfl, rfl, rfl, rfl, rfl⟩

theorem remove_markers_spec (ms : List lv_radar_marker_t) :
    ((lv_radar_remove_markers ms).2 = ms.filterMap (fun m => m.icon)) ∧
    (((lv_radar_remove_markers ms).1.all fun m => m.icon.isNone) = true) ∧
    (lv_radar_remove_markers ((lv_radar_remove_markers ms).1) =
      ((lv_radar_remove_markers ms).1, [])) := by
  induction ms with
  | nil => exact ⟨rfl, rfl, rfl⟩
  | cons m rest ih =>
      obtain ⟨ih1, ih2, ih3⟩ := ih
      refine ⟨?_, ?_, ?_⟩
      · cases h : m.icon with
        | none => simp [lv_radar_remove_markers, h, ih1]
        | some v => simp [lv_radar_remove_markers, h, ih1]
      · cases h : m.icon with
        | none => simp [lv_radar_remove_markers, h, ih2, h]
        | some v => simp [lv_radar_remove_markers, h, ih2]
      · cases h : m.icon with
        | none =>
            simp only [lv_radar_remove_markers, h]
            simp [lv_radar_remove_markers, h, ih3]
        | some v =>
            simp only [lv_radar_remove_markers, h]
            simp [lv_radar_remove_markers, ih3]

/-- C10: `lv_radar_remove_markers` deletes exactly the non-NULL icon handles
(in slot order), clears every slot's icon to NULL, and a second call on the
result deletes nothing and changes nothing: removal is idempotent and never
double-releases a handle. -/
theorem remove_markers_clears_and_idempotent (ms : List lv_radar_marker_t) :
    ((lv_radar_remove_markers ms).2 = ms.filterMap (fun m => m.icon)) ∧
    (((lv_radar_remove_markers ms).1.all fun m => m.icon.isNone) = true) ∧
    ((lv_radar_remove_markers ((lv_radar_remove_markers ms).1)).2 = []) ∧
    (lv_radar_remove_markers ((lv_radar_remove_markers ms).1) =
      ((lv_radar_remove_markers ms).1, [])) := by
  obtain ⟨h1, h2, h3⟩ := remove_markers_spec ms
  exact ⟨h1, h2, by rw [h3], h3⟩

theorem update_markers_preserves_objects (cx cy : ℤ) (r : ℝ) (b : ℕ) :
    ∀ (ms : List lv_radar_marker_t) (w : LvWorld),
      (lv_radar_update_markers cx cy r b w ms).nextId = w.nextId ∧
      (lv_radar_update_markers cx cy r b w ms).live = w.live := by
  intro ms
  induction ms with
  | nil => intro w; exact ⟨rfl, rfl⟩
  | cons m rest ih =>
      intro w
      cases h : m.icon with
      | none => simpa [lv_radar_update_markers, h] using ih _
      | some v => simpa [lv_radar_update_markers, h, lv_obj_set_pos] using ih _

theorem update_markers_objPos_of_notin (cx cy : ℤ) (r : ℝ) (b : ℕ) :
    ∀ (ms : List lv_radar_marker_t) (w : LvWorld) (h : ℕ),
      h ∉ markerKeys ms →
      (lv_radar_update_markers cx cy r b w ms).objPos h = w.objPos h := by
  intro ms
  induction ms with
  | nil => intro w h _; rfl
  | cons m rest ih =>
      intro w h hmem
      cases hi : m.icon with
      | none =>
          simp only [markerKeys, List.filterMap_cons, hi] at hmem
          simpa [lv_radar_update_markers, hi] using ih w h hmem
      | some k =>
          simp only [markerKeys, List.filterMap_cons, hi, List.mem_cons] at hmem
          push_neg at hmem
          have hne : h ≠ k := hmem.1
          have htail : h ∉ markerKeys rest := hmem.2
          simp only [lv_radar_update_markers, hi]
          rw [ih _ h htail]
          simp [lv_obj_set_pos, Function.update, hne]

theorem update_markers_objPos_of_mem (cx cy : ℤ) (r : ℝ) (b : ℕ) :
    ∀ (ms : List lv_radar_marker_t) (w w' : LvWorld) (h : ℕ),
      h ∈ markerKeys ms →
      (lv_radar_update_markers cx cy r b w ms).objPos h =
        (lv_radar_update_markers cx cy r b w' ms).objPos h := by
  intro ms
  induction ms with
  | nil => intro w w' h hmem; simp [markerKeys] at hmem
  | cons m rest ih =>
      intro w w' h hmem
      cases hi : m.icon with
      | none =>
          simp only [markerKeys, List.filterMap_cons, hi] at hmem
          simpa [lv_radar_update_markers, hi] using ih _ _ h hmem
      | some k =>
          by_cases htail : h ∈ markerKeys rest
          · simp only [lv_radar_update_markers, hi]
            exact ih _ _ h htail
          · simp only [markerKeys, List.filterMap_cons, hi, List.mem_cons] at hmem
            have hk : h = k := by
              rcases hmem with hk | hmem
              · exact hk
              · exact absurd hmem htail
            simp only [lv_radar_update_markers, hi]
            rw [update_markers_objPos_of_notin cx cy r b rest _ h htail,
              update_markers_objPos_of_notin cx cy r b rest _ h htail]
            simp [lv_obj_set_pos, Function.update, hk]

theorem update_markers_idem (cx cy : ℤ) (r : ℝ) (b : ℕ)
    (ms : List lv_radar_marker_t) (w : LvWorld) :
    lv_radar_update_markers cx cy r b (lv_radar_update_markers cx cy r b w ms) ms =
      lv_radar_update_markers cx cy r b w ms := by
  have hids := update_markers_preserves_objects cx cy r b ms
  refine LvWorld.ext ?_ ?_ ?_
  · exact (hids _).1
  · rw [(hids _).2]
  · funext h
    by_cases hmem : h ∈ markerKeys ms
    · exact update_markers_objPos_of_mem cx cy r b ms _ w h hmem
    · rw [update_markers_objPos_of_notin cx cy r b ms _ h hmem]

theorem add_markers_alloc (cx cy : ℤ) (r : ℝ) (b : ℕ) :
    ∀ (ms : List lv_radar_marker_t) (w : LvWorld),
      (lv_radar_add_markers cx cy r b w ms).1.nextId = w.nextId + ms.length ∧
      (lv_radar_add_markers cx cy r b w ms).1.live.length =
        w.live.length + ms.length := by
  intro ms
  induction ms with
  | nil => intro w; exact ⟨rfl, rfl⟩
  | cons m rest ih =>
      intro w
      obtain ⟨ih1, ih2⟩ :=
        ih (lv_obj_set_pos (lv_label_create w).1 (lv_label_create w).2
          ((markerPosAdd cx cy r b m.distance m.angle).1 - 8,
           (markerPosAdd cx cy r b m.distance m.angle).2 - 8))
      constructor
      · simp only [lv_radar_add_markers]
        rw [ih1]
        simp [lv_label_create, lv_obj_set_pos]
        omega
      · simp only [lv_radar_add_markers]
        rw [ih2]
        simp [lv_label_create, lv_obj_set_pos]
        omega

/-- Counterexample to C7 as stated: starting from an empty object world,
one call to `lv_radar_add_markers` with one target leaves one live icon
(handle 0); a subsequent call with the EMPTY target list leaves that icon
live (nothing is cleared), and a subsequent call with the SAME returned
marker list creates a second icon (live handles [0, 1]) for the same slot,
so icon creation is not at-most-once and the update is not idempotent. -/
theorem add_markers_counterexample :
    (lv_radar_add_markers 240 320 310 4 ⟨0, [], fun _ => (0, 0)⟩
        [⟨none, 5 / 2, 45⟩]).1.live = [0] ∧
    (lv_radar_add_markers 240 320 310 4
        (lv_radar_add_markers 240 320 310 4 ⟨0, [], fun _ => (0, 0)⟩
          [⟨none, 5 / 2, 45⟩]).1 []).1.live = [0] ∧
    (lv_radar_add_markers 240 320 310 4
        (lv_radar_add_markers 240 320 310 4 ⟨0, [], fun _ => (0, 0)⟩
          [⟨none, 5 / 2, 45⟩]).1
        (lv_radar_add_markers 240 320 310 4 ⟨0, [], fun _ => (0, 0)⟩
          [⟨none, 5 / 2, 45⟩]).2).1.live = [0, 1] := by
  refine ⟨?_, ?_, ?_⟩ <;>
    simp [lv_radar_add_markers, lv_label_create, lv_obj_set_pos]

/-- C7 amended: in this code there is no single `apply` operation.
`lv_radar_add_markers` with an empty target list is a no-op (it does NOT
clear previously shown markers; clearing requires `lv_radar_remove_markers`,
which does set every slot's icon to NULL), and every call to
`lv_radar_add_markers` creates one fresh icon per target, so calling it
twice duplicates icons.  `lv_radar_update_markers` is the idempotent
operation: repeating it with the same list leaves every icon position
unchanged and it never creates or deletes an object. -/
theorem marker_apply_semantics :
    (∀ (cx cy : ℤ) (r : ℝ) (b : ℕ) (w : LvWorld),
      lv_radar_add_markers cx cy r b w [] = (w, [])) ∧
    (∀ ms : List lv_radar_marker_t,
      ((lv_radar_remove_markers ms).1.all fun m => m.icon.isNone) = true) ∧
    (∀ (cx cy : ℤ) (r : ℝ) (b : ℕ) (w : LvWorld) (ms : List lv_radar_marker_t),
      (lv_radar_add_markers cx cy r b w ms).1.live.length =
        w.live.length + ms.length) ∧
    (∀ (cx cy : ℤ) (r : ℝ) (b : ℕ) (w : LvWorld) (ms : List lv_radar_marker_t),
      (lv_radar_update_markers cx cy r b w ms).nextId = w.nextId ∧
      (lv_radar_update_markers cx cy r b w ms).live = w.live) ∧
    (∀ (cx cy : ℤ) (r : ℝ) (b : ℕ) (w : LvWorld) (ms : List lv_radar_marker_t),
      lv_radar_update_markers cx cy r b (lv_radar_update_markers cx cy r b w ms) ms =
        lv_radar_update_markers cx cy r b w ms) :=
  ⟨fun _ _ _ _ _ => rfl,
   fun ms => (remove_markers_spec ms).2.1,
   fun cx cy r b w ms => (add_markers_alloc cx cy r b ms w).2,
   fun cx cy r b w ms => update_markers_preserves_objects cx cy r b ms w,
   fun cx cy r b w ms => update_markers_idem cx cy r b ms w⟩

theorem truncZ_eq_of_bounds (x : ℝ) (n : ℤ) (h0 : 0 ≤ x) (hl : (n : ℝ) ≤ x)
    (hu : x < n + 1) : truncZ x = n := by
  unfold truncZ
  rw [if_pos h0]
  exact Int.floor_eq_iff.mpr ⟨hl, hu⟩

theorem sqrt_two_lower (c : ℝ) (h0 : 0 ≤ c) (h : c ^ 2 ≤ 2) :
    c ≤ Real.sqrt 2 := by
  have hs := Real.sqrt_le_sqrt h
  rwa [Real.sqrt_sq h0] at hs

theorem sqrt_two_upper (c : ℝ) (h0 : 0 ≤ c) (h : 2 < c ^ 2) :
    Real.sqrt 2 < c := by
  have hs := Real.sqrt_lt_sqrt (by norm_num) h
  rwa [Real.sqrt_sq h0] at hs

theorem markerPosAdd_scenario :
    markerPosAdd 240 320 310 4 2500 45 = (240 + 68500, 320 - 68500) := by
  have hang : (((45 : ℕ) : ℝ)) * Real.pi / 180 = Real.pi / 4 := by
    push_cast
    ring
  have hlb := sqrt_two_lower (137000 / 96875) (by norm_num) (by norm_num)
  have hub := sqrt_two_upper (137002 / 96875) (by norm_num) (by norm_num)
  have hs0 : (0 : ℝ) ≤ Real.sqrt 2 := Real.sqrt_nonneg 2
  have hx : (2500 : ℝ) / ((((4 : ℕ) : ℝ)) * 2 / 310) * (Real.sqrt 2 / 2) =
      96875 / 2 * Real.sqrt 2 := by
    push_cast
    ring
  have htr : truncZ ((2500 : ℝ) / ((((4 : ℕ) : ℝ)) * 2 / 310) * (Real.sqrt 2 / 2)) =
      68500 := by
    rw [hx]
    apply truncZ_eq_of_bounds
    · positivity
    · push_cast
      linarith
    · push_cast
      linarith
  simp only [markerPosAdd, radarEndpoint]
  rw [hang, Real.cos_pi_div_four, Real.sin_pi_div_four, htr]

theorem radarEndpoint_310_45 :
    radarEndpoint 240 320 310 45 = (240 + 219, 320 - 219) := by
  have hang : (45 : ℝ) * Real.pi / 180 = Real.pi / 4 := by ring
  have hlb := sqrt_two_lower (219 / 155) (by norm_num) (by norm_num)
  have hub := sqrt_two_upper (220 / 155) (by norm_num) (by norm_num)
  have hx : (310 : ℝ) * (Real.sqrt 2 / 2) = 155 * Real.sqrt 2 := by ring
  have htr : truncZ ((310 : ℝ) * (Real.sqrt 2 / 2)) = 219 := by
    rw [hx]
    apply truncZ_eq_of_bounds
    · positivity
    · push_cast
      linarith
    · push_cast
      linarith
  simp only [radarEndpoint]
  rw [hang, Real.cos_pi_div_four, Real.sin_pi_div_four, htr]

/-- Counterexample to C6 as stated: with radius 310, band_count 4, the code
places a target with distance 2500 and angle 45 at pixel offset
(+68500, -68500) from the origin — not within one pixel of (+219, -219). -/
theorem marker_scenario_counterexample :
    (markerPosAdd 240 320 310 4 2500 45).1 - 240 = 68500 ∧
    (markerPosAdd 240 320 310 4 2500 45).2 - 320 = -68500 ∧
    ¬(|(markerPosAdd 240 320 310 4 2500 45).1 - 240 - 219| ≤ 1 ∧
      |(markerPosAdd 240 320 310 4 2500 45).2 - 320 + 219| ≤ 1) := by
  rw [markerPosAdd_scenario]
  norm_num

/-- C6 amended: with radius 310 and band_count 4 the code's meters-per-pixel
scale is 8/310, so a target with distance 2500 and angle 45 is converted to
a pixel distance of 96875 and placed at offset (+68500, -68500) from the
origin (the raw distance is never clamped to the radius).  The offset
(+219, -219) claimed by the spec is instead the full-radius (distance
fraction 1.0) endpoint at 45 degrees, as computed by the same transform. -/
theorem marker_scenario_actual_offsets :
    markerPosAdd 240 320 310 4 2500 45 = (240 + 68500, 320 - 68500) ∧
    radarEndpoint 240 320 310 45 = (240 + 219, 320 - 219) :=
  ⟨markerPosAdd_scenario, radarEndpoint_310_45⟩

theorem screen_draw_length (cx cy r : ℤ) (b lc : ℕ) :
    (lv_radar_screen_draw cx cy r b lc).length = b + lc + (b - 1) := by
  unfold lv_radar_screen_draw
  simp only [List.length_append, List.length_map, List.length_range]

/-- Counterexample to C8 as stated: constructing a radar screen of height 5
gives radius = 5 - 10 = -5 (a negative radius), yet construction does not
fail — it draws the full grid of 16 primitives (4 arcs, 9 radial lines,
3 horizontal lines). -/
theorem screen_create_counterexample :
    (lv_radar_screen_create 480 5).1.2.2 = -5 ∧
    (lv_radar_screen_create 480 5).1.2.2 < 0 ∧
    (lv_radar_screen_create 480 5).2.length = 16 ∧
    (lv_radar_screen_create 480 5).2 ≠ [] := by
  refine ⟨rfl, by decide, ?_, ?_⟩
  · show (lv_radar_screen_draw 240 5 (-5) 4 9).length = 16
    rw [screen_draw_length]
  · intro hempty
    have hlen : (lv_radar_screen_create 480 5).2.length = 16 := by
      show (lv_radar_screen_draw 240 5 (-5) 4 9).length = 16
      rw [screen_draw_length]
    rw [hempty] at hlen
    simp at hlen

/-- C8 amended: the code performs no configuration validation.  Construction
always succeeds and always draws the full grid (band_count + line_count +
(band_count - 1) primitives, 16 with the hard-coded band_count 4 and
line_count 9), even when the radius is zero or negative.  The only integer
division in the grid computation is by band_count, whose divisor is nonzero
for every band_count ≥ 1; the exposed constructor always passes
band_count = 4, so no division by zero is reachable through it. -/
theorem screen_create_no_validation (r : ℤ) (b lc : ℕ) (hb : 1 ≤ b) :
    (∀ cx cy : ℤ, (lv_radar_screen_draw cx cy r b lc).length = b + lc + (b - 1)) ∧
    ((b : ℤ) ≠ 0) ∧
    (∀ w h : ℤ, (lv_radar_screen_create w h).2.length = 16) := by
  refine ⟨fun cx cy => screen_draw_length cx cy r b lc, ?_, ?_⟩
  · exact_mod_cast Nat.one_le_iff_ne_zero.mp hb
  · intro w h
    show (lv_radar_screen_draw (Int.tdiv w 2) h (h - 10) 4 9).length = 16
    rw [screen_draw_length]

/-- Concrete instance of the C8 amended theorem at band_count 4. -/
theorem screen_create_no_validation_witness :
    (lv_radar_screen_draw 240 320 310 4 9).length = 4 + 9 + (4 - 1) :=
  (screen_create_no_validation 310 4 9 (by decide)).1 240 320
